import Mathlib

/-!
Verification of the composition-strategy manager
(`displayengine/libs/core/comp_manager.cpp`, namespace `sde`).

The shared state of the manager consists of two 32-bit bitsets over display
types (`registered_displays_`, `configured_displays_`) and a boolean
`safe_mode_` flag.  Public entry points are embedded as pure functions
from that state (plus the outcomes of the external collaborators, which
are passed in as explicit inputs) to the resulting state, together with
an event trace where a claim is about the order or presence of calls to
the external Resource Manager or Strategy Provider.
-/

namespace sde

/-- Error codes of the display engine.  The enumeration itself lives in a
public header outside this translation unit; only `kErrorNone` and
`kErrorMemory` are named by `comp_manager.cpp`, the rest stand for the
other values an external call may return. -/
inductive DisplayError where
  | kErrorNone
  | kErrorParameters
  | kErrorMemory
  | kErrorResources
  | kErrorHardware
  | kErrorUndefined
  deriving DecidableEq, Repr

/-- Display types.  The enumeration lives in a public header outside this
translation unit; it is a small fixed set (primary / HDMI / virtual),
used as bit positions in the two bitsets. -/
inductive DeviceType where
  | kDevicePrimary
  | kDeviceHDMI
  | kDeviceVirtual
  deriving DecidableEq, Repr

/-- The bit position a display type occupies in the bitsets
(its value as a C enumerator). -/
def DeviceType.toNat : DeviceType → Nat
  | .kDevicePrimary => 0
  | .kDeviceHDMI => 1
  | .kDeviceVirtual => 2

/-- Macro `SET_BIT(value, bit)` from `utils/constants.h`:
`value |= (1 << bit)`. -/
def SET_BIT (value bit : Nat) : Nat := value ||| (1 <<< bit)

/-- Macro `CLEAR_BIT(value, bit)` from `utils/constants.h`:
`value &= ~(1 << bit)` on a 32-bit field, i.e. conjunction with the
complement of `1 << bit` taken within 32 bits. -/
def CLEAR_BIT (value bit : Nat) : Nat := value &&& ((2 ^ 32 - 1) ^^^ (1 <<< bit))

/-- The shared manager state guarded by `locker_`: the two membership
bitsets and the safe-mode flag (`comp_manager.h` members initialised to
`0, 0, false` by the constructor). -/
structure CompManagerState where
  registered_displays_ : Nat
  configured_displays_ : Nat
  safe_mode_ : Bool
  deriving DecidableEq, Repr

/-- The state established by the `CompManager` constructor:
`registered_displays_(0), configured_displays_(0), safe_mode_(false)`. -/
def initialState : CompManagerState := ⟨0, 0, false⟩

/-- The per-device record allocated by `RegisterDevice`; of its fields
only `device_type` feeds back into the shared-state logic. -/
structure CompManagerDevice where
  device_type : DeviceType
  deriving DecidableEq, Repr

/-- Outcome of `CompManager::RegisterDevice`: the returned error, the
handle written through the out-parameter (if any), and the shared state
after the call. -/
structure RegisterResult where
  error : DisplayError
  device : Option CompManagerDevice
  state : CompManagerState
  deriving DecidableEq, Repr

/-- Embedding of `CompManager::RegisterDevice` (comp_manager.cpp:90-114).  The outcome
of the `new` allocation and of `res_mgr_.RegisterDevice` are external and
passed in as `allocOk` and `resMgrError`. -/
def CompManager.RegisterDevice (s : CompManagerState) (type : DeviceType)
    (allocOk : Bool) (resMgrError : DisplayError) : RegisterResult :=
  if !allocOk then
    ⟨.kErrorMemory, none, s⟩
  else if resMgrError ≠ .kErrorNone then
    -- delete comp_mgr_device; return error;
    ⟨resMgrError, none, s⟩
  else
    ⟨.kErrorNone, some ⟨type⟩,
      { s with registered_displays_ := SET_BIT s.registered_displays_ type.toNat,
               safe_mode_ := true }⟩

/-- Embedding of `CompManager::UnregisterDevice` (comp_manager.cpp:116-127): clears the
bit of the device type in both bitsets; the safe-mode flag is not touched. -/
def CompManager.UnregisterDevice (s : CompManagerState) (device : CompManagerDevice) :
    CompManagerState :=
  { s with registered_displays_ := CLEAR_BIT s.registered_displays_ device.device_type.toNat,
           configured_displays_ := CLEAR_BIT s.configured_displays_ device.device_type.toNat }

/-- Observable actions of `CompManager::PostCommit`, in the order the
function body performs them. -/
inductive PostCommitEvent where
  | setConfiguredBit
  | evalSafeMode
  | resMgrPostCommit
  deriving DecidableEq, Repr

/-- Embedding of `CompManager::PostCommit` (comp_manager.cpp:181-191): sets the
configured bit, re-evaluates the safe-mode flag, then calls
`res_mgr_.PostCommit`.  Returns the new shared state and the trace of
those three actions in program order. -/
def CompManager.PostCommit (s : CompManagerState) (device : CompManagerDevice) :
    CompManagerState × List PostCommitEvent :=
  let configured := SET_BIT s.configured_displays_ device.device_type.toNat
  let s1 := { s with configured_displays_ := configured }
  let s2 := { s1 with safe_mode_ :=
                if s1.configured_displays_ = s1.registered_displays_ then false
                else s1.safe_mode_ }
  (s2, [.setConfiguredBit, .evalSafeMode, .resMgrPostCommit])

/-- The shared-state effect of `CompManager::PostCommit`. -/
def CompManager.PostCommitState (s : CompManagerState) (device : CompManagerDevice) :
    CompManagerState :=
  (CompManager.PostCommit s device).1

example : (CompManager.PostCommitState ⟨1, 0, true⟩ ⟨.kDevicePrimary⟩) = ⟨1, 1, false⟩ := by decide
example : (CompManager.PostCommitState ⟨3, 0, true⟩ ⟨.kDevicePrimary⟩) = ⟨3, 1, true⟩ := by decide
example : CompManager.UnregisterDevice ⟨3, 3, true⟩ ⟨.kDeviceHDMI⟩ = ⟨1, 1, true⟩ := by decide
example : (CompManager.RegisterDevice initialState .kDeviceHDMI true .kErrorNone).state
    = ⟨2, 0, true⟩ := by decide

/-- A candidate composition strategy, as produced by one
`GetNextStrategy` call into `hw_layers->info`; its contents are opaque to
the manager, so candidates are identified by a number. -/
abbrev StrategyPlan := Nat

/-- Calls `CompManager::Prepare` makes on the Resource Manager and the
Strategy Provider, in program order.  `start`/`stop` delimit the
resource-acquisition session. -/
inductive PrepareEvent where
  | start
  | getNextStrategy
  | acquire
  | stop
  deriving DecidableEq, Repr

/-- The `while (true)` strategy-selection loop of `CompManager::Prepare`
(comp_manager.cpp:154-171).  The Strategy Provider is stateful across the
calls of one cycle; it is embedded as the list of candidates it has left
to offer, in preference order, with `GetNextStrategy` on an empty list
returning the exhaustion error of the provider, `exhaustErr` (≠ `kErrorNone`
under the provider contract).  `acquire` gives the result of
`res_mgr_.Acquire` for each candidate.  Returns the final `error` of the loop,
the accepted candidate (if any), and the trace of provider/arbiter calls
made. -/
def strategySelectLoop (exhaustErr : DisplayError) (acquire : StrategyPlan → DisplayError) :
    List StrategyPlan → DisplayError × Option StrategyPlan × List PrepareEvent
  | [] => (exhaustErr, none, [.getNextStrategy])
  | plan :: rest =>
    if acquire plan = .kErrorNone then
      -- Successfully selected and configured a composition strategy: break.
      (.kErrorNone, some plan, [.getNextStrategy, .acquire])
    else
      -- Not enough resources, try next strategy: continue.
      let r := strategySelectLoop exhaustErr acquire rest
      (r.1, r.2.1, .getNextStrategy :: .acquire :: r.2.2)

/-- Outcome of `CompManager::Prepare`: the returned error, the accepted
strategy (left in `hw_layers` on success), the `safe_mode` value of the
constraints handed to the Strategy Provider, the trace of external calls,
and the shared manager state after the call. -/
structure PrepareResult where
  error : DisplayError
  selected : Option StrategyPlan
  constraintsSafeMode : Bool
  trace : List PrepareEvent
  state : CompManagerState
  deriving DecidableEq, Repr

/-- Embedding of `CompManager::PrepareStrategyConstraints` (comp_manager.cpp:129-140):
the `safe_mode` field of the per-cycle constraints starts as the global
flag and is forced to `true` when the layer-stack validation flags
(`hw_layers->info.flags`) are non-zero. -/
def CompManager.PrepareStrategyConstraints (s : CompManagerState) (flags : Nat) : Bool :=
  let safe_mode := s.safe_mode_
  if flags ≠ 0 then true else safe_mode

/-- Embedding of `CompManager::Prepare` (comp_manager.cpp:142-175): computes the
constraints, calls `res_mgr_.Start`, runs the strategy-selection loop,
and on success calls `res_mgr_.Stop` and returns `kErrorNone`.  When the
loop ends with a provider error the code returns that error immediately,
before the `res_mgr_.Stop` call.  `flags` is `hw_layers->info.flags`;
the Strategy Provider and `res_mgr_.Acquire` are embedded as in
`strategySelectLoop`. -/
def CompManager.Prepare (s : CompManagerState) (flags : Nat) (exhaustErr : DisplayError)
    (acquire : StrategyPlan → DisplayError) (candidates : List StrategyPlan) : PrepareResult :=
  let constraintsSafe := CompManager.PrepareStrategyConstraints s flags
  let r := strategySelectLoop exhaustErr acquire candidates
  if r.1 ≠ .kErrorNone then
    -- Composition strategies exhausted: return error (no Stop on this path).
    ⟨r.1, r.2.1, constraintsSafe, .start :: r.2.2, s⟩
  else
    ⟨.kErrorNone, r.2.1, constraintsSafe, .start :: (r.2.2 ++ [.stop]), s⟩

example :
    CompManager.Prepare ⟨1, 0, false⟩ 0 .kErrorUndefined
      (fun p => if p = 2 then .kErrorNone else .kErrorResources) [0, 1, 2] =
    ⟨.kErrorNone, some 2, false,
      [.start, .getNextStrategy, .acquire, .getNextStrategy, .acquire,
       .getNextStrategy, .acquire, .stop], ⟨1, 0, false⟩⟩ := by decide

example :
    CompManager.Prepare ⟨1, 0, false⟩ 0 .kErrorUndefined
      (fun _ => .kErrorResources) [] =
    ⟨.kErrorUndefined, none, false, [.start, .getNextStrategy], ⟨1, 0, false⟩⟩ := by decide

/-- What the manager holds as its active strategy interface after `Init`:
either the interface yielded by the dynamically loaded module, or the
address of the built-in member `strategy_default_` (GPU-only
composition). -/
inductive StrategyInterfaceRef where
  | loaded (id : Nat)
  | strategy_default_
  deriving DecidableEq, Repr

/-- Outcomes of the environment-dependent steps of `CompManager::Init`:
the result of `res_mgr_.Init`, whether `dlopen` returned a handle,
whether `dlsym` found the entry symbol, and the interface the
`get_strategy_intf` entry call yielded through its out-parameter (`none`
when the call fails to yield one, leaving `strategy_intf_` NULL). -/
structure InitEnv where
  resMgrInitError : DisplayError
  dlopenOk : Bool
  dlsymOk : Bool
  entryIntf : Option Nat
  deriving DecidableEq, Repr

/-- Outcome of `CompManager::Init`: the returned error, whether
`strategy_lib_` is still a live `dlopen` handle afterwards, and the
active `strategy_intf_`. -/
structure InitResult where
  error : DisplayError
  strategy_lib_open : Bool
  strategy_intf_ : Option StrategyInterfaceRef
  deriving DecidableEq, Repr

/-- Embedding of `CompManager::Init` (comp_manager.cpp:41-77): initialises the
Resource Manager (propagating its error), then tries to load the
strategy library and resolve its interface; when no interface was
obtained it closes any partially loaded library and falls back to the
built-in `strategy_default_`. -/
def CompManager.Init (env : InitEnv) : InitResult :=
  if env.resMgrInitError ≠ .kErrorNone then
    ⟨env.resMgrInitError, false, none⟩
  else
    let lib := env.dlopenOk
    let intf : Option StrategyInterfaceRef :=
      if env.dlopenOk then
        if env.dlsymOk then env.entryIntf.map .loaded else none
      else none
    if intf = none then
      -- dlclose(strategy_lib_); strategy_intf_ = &strategy_default_;
      ⟨.kErrorNone, false, some .strategy_default_⟩
    else
      ⟨.kErrorNone, lib, intf⟩

example : CompManager.Init ⟨.kErrorNone, true, true, some 7⟩ =
    ⟨.kErrorNone, true, some (.loaded 7)⟩ := by decide
example : CompManager.Init ⟨.kErrorNone, true, false, some 7⟩ =
    ⟨.kErrorNone, false, some .strategy_default_⟩ := by decide
example : CompManager.Init ⟨.kErrorHardware, true, true, some 7⟩ =
    ⟨.kErrorHardware, false, none⟩ := by decide

/-- A call in a sequence of shared-state-mutating manager operations:
a `RegisterDevice` attempt (with the external outcomes it observes), an
`UnregisterDevice` for a handle of the given type, or a `PostCommit` for
a handle of the given type. -/
inductive ManagerOp where
  | reg (type : DeviceType) (allocOk : Bool) (resMgrError : DisplayError)
  | unreg (type : DeviceType)
  | commit (type : DeviceType)
  deriving DecidableEq, Repr

/-- Shared-state effect of one manager operation. -/
def stepOp (s : CompManagerState) : ManagerOp → CompManagerState
  | .reg type allocOk resMgrError => (CompManager.RegisterDevice s type allocOk resMgrError).state
  | .unreg type => CompManager.UnregisterDevice s ⟨type⟩
  | .commit type => CompManager.PostCommitState s ⟨type⟩

/-- Shared-state effect of a sequence of manager operations. -/
def runOps (s : CompManagerState) : List ManagerOp → CompManagerState
  | [] => s
  | op :: rest => runOps (stepOp s op) rest

/-- One operation is legal in a state when, if it is an
`UnregisterDevice` or `PostCommit`, it targets a handle whose device type
is currently registered (the caller discipline the public contract
assumes). -/
def opLegal (s : CompManagerState) : ManagerOp → Bool
  | .reg _ _ _ => true
  | .unreg type => s.registered_displays_.testBit type.toNat
  | .commit type => s.registered_displays_.testBit type.toNat

/-- A sequence is legal when every operation in it is legal at the point
it runs. -/
def legalOps (s : CompManagerState) : List ManagerOp → Bool
  | [] => true
  | op :: rest => opLegal s op && legalOps (stepOp s op) rest

/-- Relation `configured ⊆ registered`, read bitwise. -/
def bitSubset (c r : Nat) : Prop := ∀ i, c.testBit i = true → r.testBit i = true

example : legalOps initialState
    [.reg .kDevicePrimary true .kErrorNone, .commit .kDevicePrimary,
     .reg .kDeviceHDMI true .kErrorNone, .unreg .kDevicePrimary] = true := by decide
example : runOps initialState
    [.reg .kDevicePrimary true .kErrorNone, .commit .kDevicePrimary,
     .reg .kDeviceHDMI true .kErrorNone, .unreg .kDevicePrimary] = ⟨2, 0, true⟩ := by decide

/-! ## Helper lemmas about the bit macros -/

theorem testBit_SET_BIT (v b i : Nat) :
    (SET_BIT v b).testBit i = (v.testBit i || decide (b = i)) := by
  simp [SET_BIT, Nat.testBit_or, Nat.one_shiftLeft, Nat.testBit_two_pow]

theorem testBit_mask32 (i : Nat) : Nat.testBit 4294967295 i = decide (i < 32) := by
  have h : (4294967295 : Nat) = 2 ^ 32 - 1 := by norm_num
  rw [h, Nat.testBit_two_pow_sub_one]

theorem testBit_CLEAR_BIT (v b i : Nat) :
    (CLEAR_BIT v b).testBit i = (v.testBit i && (decide (i < 32) ^^ decide (b = i))) := by
  simp [CLEAR_BIT, Nat.testBit_and, Nat.testBit_xor, testBit_mask32,
    Nat.one_shiftLeft, Nat.testBit_two_pow]

theorem SET_BIT_idem (v b : Nat) : SET_BIT (SET_BIT v b) b = SET_BIT v b := by
  apply Nat.eq_of_testBit_eq
  intro i
  simp [testBit_SET_BIT, Bool.or_assoc]

/-- Lemma: `RegisterDevice` either forces the safe-mode flag to `true` or (on a
failure path) leaves the state untouched. -/
theorem RegisterDevice_state_cases (s : CompManagerState) (type : DeviceType)
    (allocOk : Bool) (resMgrError : DisplayError) :
    (CompManager.RegisterDevice s type allocOk resMgrError).state =
      { s with registered_displays_ := SET_BIT s.registered_displays_ type.toNat,
               safe_mode_ := true } ∨
    (CompManager.RegisterDevice s type allocOk resMgrError).state = s := by
  unfold CompManager.RegisterDevice
  split
  · right; rfl
  split
  · right; rfl
  · left; rfl

/-! ## Claims -/

/-- C6: every successful `RegisterDevice` call sets the given display
bit of the type in `registered_displays_`, returns a handle for the new
device, and unconditionally sets `safe_mode_` to `true`. -/
theorem RegisterDevice_success_effects (s : CompManagerState) (type : DeviceType)
    (allocOk : Bool) (resMgrError : DisplayError)
    (h : (CompManager.RegisterDevice s type allocOk resMgrError).error = .kErrorNone) :
    (CompManager.RegisterDevice s type allocOk resMgrError).state.registered_displays_.testBit
        type.toNat = true ∧
    (CompManager.RegisterDevice s type allocOk resMgrError).device = some ⟨type⟩ ∧
    (CompManager.RegisterDevice s type allocOk resMgrError).state.safe_mode_ = true := by
  unfold CompManager.RegisterDevice at h ⊢
  split at h
  · simp at h
  · split at h
    · simp_all
    · simp_all [testBit_SET_BIT]

theorem RegisterDevice_success_effects_witness :
    (CompManager.RegisterDevice initialState .kDevicePrimary true .kErrorNone).error =
      .kErrorNone ∧
    ((CompManager.RegisterDevice initialState .kDevicePrimary true
        .kErrorNone).state.registered_displays_.testBit
        (DeviceType.kDevicePrimary).toNat = true ∧
     (CompManager.RegisterDevice initialState .kDevicePrimary true .kErrorNone).device =
       some ⟨.kDevicePrimary⟩ ∧
     (CompManager.RegisterDevice initialState .kDevicePrimary true
        .kErrorNone).state.safe_mode_ = true) :=
  ⟨by decide,
    RegisterDevice_success_effects initialState .kDevicePrimary true .kErrorNone (by decide)⟩

/-- C7: when `res_mgr_.RegisterDevice` fails, the allocated device is
discarded, the arbiter error is returned verbatim, and the shared
state is unchanged (no bits set, flag keeps its previous value). -/
theorem RegisterDevice_resMgr_failure (s : CompManagerState) (type : DeviceType)
    (resMgrError : DisplayError) (he : resMgrError ≠ .kErrorNone) :
    CompManager.RegisterDevice s type true resMgrError = ⟨resMgrError, none, s⟩ := by
  simp [CompManager.RegisterDevice, he]

theorem RegisterDevice_resMgr_failure_witness :
    (DisplayError.kErrorHardware ≠ DisplayError.kErrorNone) ∧
    CompManager.RegisterDevice ⟨4, 4, false⟩ .kDevicePrimary true .kErrorHardware =
      ⟨.kErrorHardware, none, ⟨4, 4, false⟩⟩ :=
  ⟨by decide, RegisterDevice_resMgr_failure ⟨4, 4, false⟩ .kDevicePrimary .kErrorHardware
    (by decide)⟩

/-- C8: a `Prepare` call whose `hw_layers->info.flags` carries a
validation-failure signal hands the Strategy Provider constraints with
`safe_mode = true` regardless of the global flag, and leaves the shared
state — in particular `safe_mode_` — unchanged. -/
theorem Prepare_validation_failure_safe (s : CompManagerState) (flags : Nat)
    (exhaustErr : DisplayError) (acquire : StrategyPlan → DisplayError)
    (candidates : List StrategyPlan) (hflags : flags ≠ 0) :
    (CompManager.Prepare s flags exhaustErr acquire candidates).constraintsSafeMode = true ∧
    (CompManager.Prepare s flags exhaustErr acquire candidates).state = s := by
  unfold CompManager.Prepare CompManager.PrepareStrategyConstraints
  by_cases hr : (strategySelectLoop exhaustErr acquire candidates).1 = DisplayError.kErrorNone <;>
    simp [hflags, hr]

theorem Prepare_validation_failure_safe_witness :
    ((1 : Nat) ≠ 0) ∧
    ((CompManager.Prepare ⟨1, 1, false⟩ 1 .kErrorUndefined (fun _ => .kErrorNone)
        [5]).constraintsSafeMode = true ∧
     (CompManager.Prepare ⟨1, 1, false⟩ 1 .kErrorUndefined (fun _ => .kErrorNone) [5]).state =
       ⟨1, 1, false⟩) :=
  ⟨by decide,
    Prepare_validation_failure_safe ⟨1, 1, false⟩ 1 .kErrorUndefined (fun _ => .kErrorNone)
      [5] (by decide)⟩

/-- C9: when loading the strategy-provider module fails (module absent,
symbol missing, or the entry call yields no interface) while
`res_mgr_.Init` succeeds, `Init` still returns `kErrorNone`, any
partially loaded module is closed, and the built-in `strategy_default_`
is installed as the active provider. -/
theorem Init_load_failure_fallback (env : InitEnv)
    (hres : env.resMgrInitError = .kErrorNone)
    (hload : env.dlopenOk = false ∨ env.dlsymOk = false ∨ env.entryIntf = none) :
    CompManager.Init env = ⟨.kErrorNone, false, some .strategy_default_⟩ := by
  unfold CompManager.Init
  rcases hload with h | h | h <;> simp [hres, h]

theorem Init_load_failure_fallback_witness :
    ((⟨.kErrorNone, true, true, none⟩ : InitEnv).resMgrInitError = .kErrorNone) ∧
    CompManager.Init ⟨.kErrorNone, true, true, none⟩ =
      ⟨.kErrorNone, false, some .strategy_default_⟩ :=
  ⟨by decide, Init_load_failure_fallback ⟨.kErrorNone, true, true, none⟩ rfl
    (Or.inr (Or.inr rfl))⟩

/-- C2 counterexample: in `PostCommit` the arbiter notification
(`res_mgr_.PostCommit`) does NOT precede the configured-set update — at a
concrete state the trace places `setConfiguredBit` (index 0) before
`resMgrPostCommit` (index 2). -/
theorem PostCommit_arbiter_not_first :
    ¬ ((CompManager.PostCommit ⟨1, 0, true⟩ ⟨.kDevicePrimary⟩).2.indexOf
          PostCommitEvent.resMgrPostCommit <
        (CompManager.PostCommit ⟨1, 0, true⟩ ⟨.kDevicePrimary⟩).2.indexOf
          PostCommitEvent.setConfiguredBit) := by decide

/-- C2 amended: in every `PostCommit` call the manager first sets the
configured bit of the device type and evaluates the safe-mode transition, and
only then informs the Resource Manager that the plan was committed. -/
theorem PostCommit_state_update_precedes_arbiter (s : CompManagerState)
    (device : CompManagerDevice) :
    (CompManager.PostCommit s device).2 =
      [.setConfiguredBit, .evalSafeMode, .resMgrPostCommit] := rfl

/-- C1: evaluation at the failing input.  When the Strategy Provider
signals exhaustion (here: on its first call), `Prepare` opens the
resource session (`start` is in the trace) and returns the provider
error without ever calling `res_mgr_.Stop` (`stop` is not in the trace):
the session is left open on this exit path. -/
theorem Prepare_exhaustion_skips_stop :
    (CompManager.Prepare ⟨1, 0, true⟩ 0 .kErrorUndefined (fun _ => .kErrorResources) []).error =
      .kErrorUndefined ∧
    PrepareEvent.start ∈
      (CompManager.Prepare ⟨1, 0, true⟩ 0 .kErrorUndefined (fun _ => .kErrorResources)
        []).trace ∧
    PrepareEvent.stop ∉
      (CompManager.Prepare ⟨1, 0, true⟩ 0 .kErrorUndefined (fun _ => .kErrorResources)
        []).trace := by
  decide

/-- C10: `PostCommit` is idempotent on the shared state — for a
registered device, running its shared-state effect twice equals running
it once. -/
theorem PostCommit_idempotent (s : CompManagerState) (device : CompManagerDevice)
    (_h : s.registered_displays_.testBit device.device_type.toNat = true) :
    CompManager.PostCommitState (CompManager.PostCommitState s device) device =
      CompManager.PostCommitState s device := by
  simp only [CompManager.PostCommitState, CompManager.PostCommit, SET_BIT_idem]
  by_cases hc : SET_BIT s.configured_displays_ device.device_type.toNat =
      s.registered_displays_ <;>
    simp [hc]

/-- C3: over any sequence of the three shared-state operations, the
safe-mode flag goes from `true` to `false` only at a `PostCommit` step;
and at a `PostCommit` step from a `Safe` state it ends `Normal` exactly
when, after setting the configured bit of the committing type, the configured
set equals the registered set.  (`RegisterDevice` and
`UnregisterDevice` therefore never set the flag to `Normal`.) -/
theorem safe_to_normal_only_at_PostCommit :
    (∀ (s : CompManagerState) (op : ManagerOp),
        s.safe_mode_ = true → (stepOp s op).safe_mode_ = false →
        ∃ type, op = ManagerOp.commit type) ∧
    (∀ (s : CompManagerState) (type : DeviceType), s.safe_mode_ = true →
        ((stepOp s (ManagerOp.commit type)).safe_mode_ = false ↔
          SET_BIT s.configured_displays_ type.toNat = s.registered_displays_)) := by
  constructor
  · intro s op hs hstep
    cases op with
    | reg type allocOk resMgrError =>
      exfalso
      rcases RegisterDevice_state_cases s type allocOk resMgrError with hcase | hcase <;>
        rw [stepOp, hcase] at hstep <;> simp_all
    | unreg type =>
      exfalso
      rw [stepOp] at hstep
      exact absurd (hs ▸ hstep) (by simp [CompManager.UnregisterDevice])
    | commit type => exact ⟨type, rfl⟩
  · intro s type hs
    by_cases hc : SET_BIT s.configured_displays_ type.toNat = s.registered_displays_ <;>
      simp [stepOp, CompManager.PostCommitState, CompManager.PostCommit, hc, hs]

theorem safe_to_normal_only_at_PostCommit_witness :
    ((⟨2, 0, true⟩ : CompManagerState).safe_mode_ = true) ∧
    (stepOp ⟨2, 0, true⟩ (ManagerOp.commit .kDeviceHDMI)).safe_mode_ = false :=
  ⟨rfl, (safe_to_normal_only_at_PostCommit.2 ⟨2, 0, true⟩ .kDeviceHDMI rfl).mpr (by decide)⟩

/-- Each legal operation preserves `configured ⊆ registered`. -/
theorem stepOp_preserves_subset (s : CompManagerState) (op : ManagerOp)
    (hsub : bitSubset s.configured_displays_ s.registered_displays_)
    (hlegal : opLegal s op = true) :
    bitSubset (stepOp s op).configured_displays_ (stepOp s op).registered_displays_ := by
  cases op with
  | reg type allocOk resMgrError =>
    rcases RegisterDevice_state_cases s type allocOk resMgrError with hcase | hcase <;>
      rw [stepOp, hcase]
    · intro i hi
      have := hsub i hi
      simp [testBit_SET_BIT, this]
    · exact hsub
  | unreg type =>
    intro i hi
    rw [stepOp, CompManager.UnregisterDevice] at hi ⊢
    simp only [testBit_CLEAR_BIT, Bool.and_eq_true] at hi ⊢
    exact ⟨hsub i hi.1, hi.2⟩
  | commit type =>
    intro i hi
    rw [stepOp, CompManager.PostCommitState, CompManager.PostCommit] at hi
    simp only [testBit_SET_BIT, Bool.or_eq_true] at hi
    rcases hi with hi | hi
    · exact hsub i hi
    · have : type.toNat = i := of_decide_eq_true hi
      rw [stepOp, CompManager.PostCommitState, CompManager.PostCommit]
      exact this ▸ hlegal

/-- Legal sequences run from a state satisfying the subset invariant end
in a state satisfying it. -/
theorem legal_runOps_subset (ops : List ManagerOp) : ∀ (s : CompManagerState),
    bitSubset s.configured_displays_ s.registered_displays_ →
    legalOps s ops = true →
    bitSubset (runOps s ops).configured_displays_ (runOps s ops).registered_displays_ := by
  induction ops with
  | nil => intro s hs _; exact hs
  | cons op rest ih =>
    intro s hs hlegal
    simp only [legalOps, Bool.and_eq_true] at hlegal
    exact ih _ (stepOp_preserves_subset s op hs hlegal.1) hlegal.2

/-- C4: starting from the constructor state (both bitsets empty), after
any sequence of `RegisterDevice` / `UnregisterDevice` / `PostCommit`
calls whose `UnregisterDevice` and `PostCommit` calls target currently
registered types, the configured set is a subset of the registered
set. -/
theorem configured_subset_registered (ops : List ManagerOp)
    (hlegal : legalOps initialState ops = true) :
    bitSubset (runOps initialState ops).configured_displays_
      (runOps initialState ops).registered_displays_ :=
  legal_runOps_subset ops initialState (fun i hi => by simp [initialState] at hi) hlegal

theorem configured_subset_registered_witness :
    legalOps initialState
      [.reg .kDevicePrimary true .kErrorNone, .commit .kDevicePrimary,
       .reg .kDeviceHDMI true .kErrorNone, .unreg .kDevicePrimary] = true ∧
    bitSubset
      (runOps initialState
        [.reg .kDevicePrimary true .kErrorNone, .commit .kDevicePrimary,
         .reg .kDeviceHDMI true .kErrorNone, .unreg .kDevicePrimary]).configured_displays_
      (runOps initialState
        [.reg .kDevicePrimary true .kErrorNone, .commit .kDevicePrimary,
         .reg .kDeviceHDMI true .kErrorNone, .unreg .kDevicePrimary]).registered_displays_ :=
  ⟨by decide, configured_subset_registered _ (by decide)⟩

/-- When the arbiter rejects every candidate before the last one and
accepts the last, the strategy-selection loop stops at the last
candidate after exactly one provider call and one acquire attempt per
candidate. -/
theorem strategySelectLoop_accepts_first_feasible (exhaustErr : DisplayError)
    (acquire : StrategyPlan → DisplayError) (lastPlan : StrategyPlan)
    (hacc : acquire lastPlan = .kErrorNone) :
    ∀ front : List StrategyPlan, (∀ p ∈ front, acquire p ≠ .kErrorNone) →
      (strategySelectLoop exhaustErr acquire (front ++ [lastPlan])).1 = .kErrorNone ∧
      (strategySelectLoop exhaustErr acquire (front ++ [lastPlan])).2.1 = some lastPlan ∧
      (strategySelectLoop exhaustErr acquire (front ++ [lastPlan])).2.2.count
          .getNextStrategy = front.length + 1 ∧
      (strategySelectLoop exhaustErr acquire (front ++ [lastPlan])).2.2.count
          .acquire = front.length + 1 := by
  intro front
  induction front with
  | nil =>
    intro _
    simp [strategySelectLoop, hacc, List.count_cons]
  | cons p rest ih =>
    intro h
    have hp : acquire p ≠ .kErrorNone := h p (List.mem_cons_self p _)
    obtain ⟨ih1, ih2, ih3, ih4⟩ := ih (fun q hq => h q (List.mem_cons_of_mem p hq))
    simp only [List.cons_append, strategySelectLoop, hp, if_false, ite_false,
      if_neg hp]
    refine ⟨ih1, ih2, ?_, ?_⟩ <;> simp [List.count_cons, ih3, ih4]

/-- C5: for a Strategy Provider offering `front ++ [lastPlan]` in one
cycle, where the arbiter rejects every plan in `front` and accepts
`lastPlan`, `Prepare` succeeds with `lastPlan` selected after exactly
`front.length + 1` provider calls and the same number of acquire
attempts — it never requests a candidate past the accepted one. -/
theorem Prepare_accepts_first_feasible (s : CompManagerState) (flags : Nat)
    (exhaustErr : DisplayError) (acquire : StrategyPlan → DisplayError)
    (front : List StrategyPlan) (lastPlan : StrategyPlan)
    (hrej : ∀ p ∈ front, acquire p ≠ .kErrorNone) (hacc : acquire lastPlan = .kErrorNone) :
    (CompManager.Prepare s flags exhaustErr acquire (front ++ [lastPlan])).error =
      .kErrorNone ∧
    (CompManager.Prepare s flags exhaustErr acquire (front ++ [lastPlan])).selected =
      some lastPlan ∧
    (CompManager.Prepare s flags exhaustErr acquire (front ++ [lastPlan])).trace.count
        .getNextStrategy = front.length + 1 ∧
    (CompManager.Prepare s flags exhaustErr acquire (front ++ [lastPlan])).trace.count
        .acquire = front.length + 1 := by
  obtain ⟨h1, h2, h3, h4⟩ :=
    strategySelectLoop_accepts_first_feasible exhaustErr acquire lastPlan hacc front hrej
  unfold CompManager.Prepare
  simp [h1, h2, List.count_cons, List.count_append, h3, h4]

theorem Prepare_accepts_first_feasible_witness :
    ((∀ p ∈ ([10, 11] : List StrategyPlan),
        (fun q => if q = 12 then DisplayError.kErrorNone else DisplayError.kErrorResources) p ≠
          DisplayError.kErrorNone) ∧
      (fun q => if q = 12 then DisplayError.kErrorNone else DisplayError.kErrorResources) 12 =
        DisplayError.kErrorNone) ∧
    ((CompManager.Prepare ⟨1, 0, false⟩ 0 .kErrorUndefined
        (fun q => if q = 12 then DisplayError.kErrorNone else DisplayError.kErrorResources)
        ([10, 11] ++ [12])).error = .kErrorNone ∧
     (CompManager.Prepare ⟨1, 0, false⟩ 0 .kErrorUndefined
        (fun q => if q = 12 then DisplayError.kErrorNone else DisplayError.kErrorResources)
        ([10, 11] ++ [12])).selected = some 12 ∧
     (CompManager.Prepare ⟨1, 0, false⟩ 0 .kErrorUndefined
        (fun q => if q = 12 then DisplayError.kErrorNone else DisplayError.kErrorResources)
        ([10, 11] ++ [12])).trace.count .getNextStrategy = [10, 11].length + 1 ∧
     (CompManager.Prepare ⟨1, 0, false⟩ 0 .kErrorUndefined
        (fun q => if q = 12 then DisplayError.kErrorNone else DisplayError.kErrorResources)
        ([10, 11] ++ [12])).trace.count .acquire = [10, 11].length + 1) :=
  ⟨⟨by decide, by decide⟩,
    Prepare_accepts_first_feasible ⟨1, 0, false⟩ 0 .kErrorUndefined
      (fun q => if q = 12 then DisplayError.kErrorNone else DisplayError.kErrorResources)
      [10, 11] 12 (by decide) (by decide)⟩

theorem PostCommit_idempotent_witness :
    ((⟨3, 0, true⟩ : CompManagerState).registered_displays_.testBit
        (CompManagerDevice.mk .kDevicePrimary).device_type.toNat = true) ∧
    CompManager.PostCommitState
        (CompManager.PostCommitState ⟨3, 0, true⟩ ⟨.kDevicePrimary⟩) ⟨.kDevicePrimary⟩ =
      CompManager.PostCommitState ⟨3, 0, true⟩ ⟨.kDevicePrimary⟩ :=
  ⟨by decide, PostCommit_idempotent ⟨3, 0, true⟩ ⟨.kDevicePrimary⟩ (by decide)⟩

end sde
